import Mathlib

/-!
Verification development for the premises network of the terms project
(src/terms/network.py).  The Python source is shallowly embedded: Python
dicts become association lists, ORM rows become structures, fallible
Python evaluation (raised exceptions) becomes Except over an error type,
and the recursive node dispatch is reified one activation at a time (a
call returns the list of recursive calls it would make).  External
collaborators that live in repository modules absent from src/
(terms.words, terms.factset, terms.patterns, and the in-progress
Match/MPair persistence schema referred to by PremNode.dispatch) are
modelled from the spec, as marked in the corresponding doc comments.
-/

namespace TermsNet

/-- Python exceptions that the embedded fragments of network.py can raise. -/
inductive PyErr where
  | keyError
  | typeError
  | nameError
  | attributeError
  | indexError
  | notImplementedError
  | noResultFound
  | multipleResultsFound
  | operationalError
  deriving DecidableEq, Repr

/-- First-match lookup in an association list: Python dict read d[k] / `k in d`. -/
def dlookup {K V : Type} [DecidableEq K] : List (K × V) → K → Option V
  | [], _ => none
  | (k2, v2) :: rest, k => if k2 = k then some v2 else dlookup rest k

/-- Python dict assignment d[k] = v: replace the existing entry in place,
otherwise append the new entry at the end (insertion order semantics). -/
def dinsert {K V : Type} [DecidableEq K] : List (K × V) → K → V → List (K × V)
  | [], k, v => [(k, v)]
  | (k2, v2) :: rest, k, v =>
      if k2 = k then (k, v) :: rest else (k2, v2) :: dinsert rest k v

/-- Top-level names bound in the module scope of network.py (its imports and
its class and table definitions).  Used to embed Python name resolution for
free names appearing inside function bodies: a name not bound in the function
scope is looked up here, and raises NameError when absent. -/
def moduleNames : List String :=
  ["re", "Table", "Column", "Sequence", "ForeignKey", "Integer", "String",
   "Boolean", "declarative_base", "relationship", "backref", "aliased",
   "create_engine", "sessionmaker", "NoResultFound", "OperationalError",
   "get_name", "get_type", "get_bases", "isa", "exists", "thing",
   "Base", "Term", "term_to_base", "Predicate", "Lexicon", "FactSet",
   "exceptions", "patterns", "Match", "Network", "Node", "RootNode",
   "NegNode", "TermNode", "VerbNode", "LabelNode", "prem_to_rule",
   "PremNode", "Varname", "MNode", "PVarname", "CondArg", "Condition", "Rule"]

/-- Python name resolution for a free (non-local) name: module scope or NameError. -/
def pyModuleName (n : String) : Except PyErr String :=
  if moduleNames.contains n then Except.ok n else Except.error PyErr.nameError

/-- A word (terms.words): the value a fact decomposes into.  Carries the term
row id, its name, its truth flag (the Python attribute named true, read by
NegNode.resolve), the id of its term_type, and its labeled objects
(navigated by get_object). -/
inductive W where
  | mk (id : Nat) (name : String) (truth : Bool) (typeId : Nat)
       (objs : List (String × W))

def W.wid : W → Nat
  | .mk i _ _ _ _ => i

def W.name : W → String
  | .mk _ n _ _ _ => n

def W.truth : W → Bool
  | .mk _ _ t _ _ => t

def W.typeId : W → Nat
  | .mk _ _ _ ty _ => ty

/-- Embeds term.get_object(segment): find the object under a label.
A missing label raises AttributeError in the source; the resolve methods
catch it, so it is modelled as none. -/
def W.getObject : W → String → Option W
  | .mk _ _ _ _ objs, seg => (objs.find? (fun p => p.1 == seg)).map (fun p => p.2)

/-- Iterated get_object along a path (the loop shared by the resolve methods:
for segment in path, term = term.get_object(segment)). -/
def W.nav : W → List String → Option W
  | w, [] => some w
  | w, seg :: rest =>
      match W.getObject w seg with
      | none => none
      | some w2 => W.nav w2 rest

/-- The value a node stores and a resolve method returns: a boolean for neg
nodes, a term (by row id, with its type id) for term and verb nodes, a string
for label nodes.  Mirrors the per-kind value columns of network.py. -/
inductive NVal where
  | b (x : Bool)
  | t (id : Nat) (typeId : Nat)
  | s (x : String)
  deriving DecidableEq, Repr

/-- SQL equality cls.value == value used in the child queries: boolean column,
term foreign key (row id), or string column; mismatched kinds compare unequal. -/
def NVal.eqv : NVal → NVal → Bool
  | .b x, .b y => x == y
  | .t i _, .t j _ => i == j
  | .s x, .s y => x == y
  | _, _ => false

/-- Term row id carried by a term-valued NVal (0 for other kinds). -/
def NVal.tid : NVal → Nat
  | .t i _ => i
  | _ => 0

/-- Type id carried by a term-valued NVal (0 for other kinds). -/
def NVal.tyid : NVal → Nat
  | .t _ ty => ty
  | _ => 0

/-- The polymorphic node kinds of the premises network (polymorphic_identity
tags _root, _neg, _term, _verb, _label). -/
inductive NK where
  | root
  | neg
  | term
  | verb
  | label
  deriving DecidableEq, Repr

/-- A child row of a node, as the dispatch and child queries see it: its
kind tag, its Node.var slot, its stored value, and - for term and verb
nodes - the columns of the Term row its value points at (Term.var,
Term.type_id) together with its term_to_base rows. -/
structure NChild where
  kind : NK
  var : Nat
  value : NVal
  tvar : Nat
  ttypeId : Nat
  tbaseIds : List Nat
  deriving DecidableEq, Repr

/-- A parent node during dispatch: the Path segment list its children test
(child_path), its children collection, and its optional premise terminal. -/
structure NParent where
  childPath : List String
  children : List NChild
  terminal : Option Nat

/-- External collaborators of network.py.  Modelled from the spec: the
repository modules terms.words, terms.factset and terms.patterns are not
under src/, so the type/instance hierarchy walkers, the fact decomposition
and the variable-name recognition predicate (spec section 6) are abstract
parameters here. -/
structure Ctx where
  varMatch : String → Option Nat
  getBases : Nat → List Nat
  typeOf : Nat → Nat
  isaThing : Nat → Bool
  getPaths : W → List (List String)

/-- Embeds Network._get_nclass (network.py 88-93) fused with the attribute
access that follows it at each call site: an unknown tag makes _get_nclass
return None, and the subsequent cls.resolve / cls.get_children attribute
access on None raises AttributeError. -/
def getNclass : String → Except PyErr NK
  | "_root" => Except.ok NK.root
  | "_neg" => Except.ok NK.neg
  | "_term" => Except.ok NK.term
  | "_verb" => Except.ok NK.verb
  | "_label" => Except.ok NK.label
  | _ => Except.error PyErr.attributeError

/-- Last element of a path: the Python expression path[-1] on a nonempty path. -/
def tagOf (path : List String) : String := path.getLastD ("")

/-- Embeds the per-kind resolve classmethods (network.py 258-265, 282-295,
326-335, 363-365, and the base Node.resolve at 194-202 which raises
NotImplementedError).  Navigation failure (fact shape shorter than the path)
raises AttributeError inside the method and is caught, yielding None.
VerbNode.resolve, on a variable-named term, executes return w where w is a
free name bound nowhere (line 334), raising NameError.  LabelNode.resolve
returns path[-2], which raises IndexError on a path shorter than two. -/
def resolveK (ctx : Ctx) : NK → W → List String → Except PyErr (Option NVal)
  | NK.root, _, _ => Except.error PyErr.notImplementedError
  | NK.neg, w, path =>
      Except.ok ((W.nav w path.dropLast).map (fun t => NVal.b (W.truth t)))
  | NK.term, w, path =>
      Except.ok ((W.nav w path.dropLast).map (fun t => NVal.t (W.wid t) (W.typeId t)))
  | NK.verb, w, path =>
      match W.nav w path.dropLast with
      | none => Except.ok none
      | some t =>
          if (ctx.varMatch (W.name t)).isSome then
            match pyModuleName ("w") with
            | Except.error e => Except.error e
            | Except.ok _ => Except.error PyErr.nameError
          else
            Except.ok (some (NVal.t (W.typeId t) (ctx.typeOf (W.typeId t))))
  | NK.label, _, path =>
      match path.reverse.get? 1 with
      | none => Except.error PyErr.indexError
      | some s => Except.ok (some (NVal.s s))

/-- One item of the children value built by a get_children method: either a
bare Node (only produced by the match-all branch of dispatch, which assigns
parent.children.all(), a flat list of rows) or a query over child rows.  The
inner loop of dispatch iterates each item; iterating a bare Node raises
TypeError since Node defines no iteration protocol. -/
inductive ChItem where
  | node (c : NChild)
  | query (cs : List NChild)

/-- The inner iteration of dispatch (for ch in children: for child in ch):
flattens the items, raising TypeError at the first bare Node item. -/
def iterChItems : List ChItem → Except PyErr (List NChild)
  | [] => Except.ok []
  | ChItem.node _ :: _ => Except.error PyErr.typeError
  | ChItem.query cs :: rest =>
      match iterChItems rest with
      | Except.error e => Except.error e
      | Except.ok tail => Except.ok (cs ++ tail)

/-- Embeds TermNode.get_children (network.py 297-313): literal-value children;
then either children tagged with the variable slot already bound to this value
in the match, or variable children (Term.var greater than 0) whose declared
type is the value's type or one of its ancestor types, additionally filtered -
when the value is not a thing - through term_to_base against the value and its
ancestor instances (the join can produce duplicates, as the source's XXX
comment notes, hence the flatMap). -/
def termGetChildren (ctx : Ctx) (p : NParent) (entries : List (Nat × NVal))
    (v : NVal) : List ChItem :=
  let lits := p.children.filter (fun c => c.kind == NK.term && NVal.eqv c.value v)
  let vch :=
    match entries.find? (fun kv => NVal.eqv kv.2 v) with
    | some kv => p.children.filter (fun c => c.var == kv.1)
    | none =>
        let tids := NVal.tyid v :: ctx.getBases (NVal.tyid v)
        let base := p.children.filter
          (fun c => c.kind == NK.term && decide (0 < c.tvar) && tids.contains c.ttypeId)
        if ctx.isaThing (NVal.tid v) then base
        else
          let bids := NVal.tid v :: ctx.getBases (NVal.tid v)
          base.flatMap (fun c => (c.tbaseIds.filter bids.contains).map (fun _ => c))
  [ChItem.query lits, ChItem.query vch]

/-- Embeds VerbNode.get_children (network.py 337-352): literal children, then
either the slot bound to this value (pchildren staying the empty list), or
variable verb children split by type (pchildren) and by term_to_base rows
against the same type id list (vchildren). -/
def verbGetChildren (ctx : Ctx) (p : NParent) (entries : List (Nat × NVal))
    (v : NVal) : List ChItem :=
  let lits := p.children.filter (fun c => c.kind == NK.verb && NVal.eqv c.value v)
  match entries.find? (fun kv => NVal.eqv kv.2 v) with
  | some kv =>
      let vch := p.children.filter (fun c => c.var == kv.1)
      [ChItem.query lits, ChItem.query [], ChItem.query vch]
  | none =>
      let tids := NVal.tyid v :: ctx.getBases (NVal.tyid v)
      let chvars := p.children.filter (fun c => c.kind == NK.verb && decide (0 < c.tvar))
      let pch := chvars.filter (fun c => tids.contains c.ttypeId)
      let vch := chvars.flatMap (fun c => (c.tbaseIds.filter tids.contains).map (fun _ => c))
      [ChItem.query lits, ChItem.query pch, ChItem.query vch]

/-- Embeds the per-kind get_children classmethods: NegNode (267-269) filters
neg children on the boolean value; LabelNode (367-369) returns all children
unconditionally; term and verb are above; the base Node.get_children
(225-233, reached for the _root tag) raises NotImplementedError. -/
def getChildrenK (ctx : Ctx) : NK → NParent → List (Nat × NVal) → NVal →
    Except PyErr (List ChItem)
  | NK.root, _, _, _ => Except.error PyErr.notImplementedError
  | NK.neg, p, _, v =>
      Except.ok [ChItem.query (p.children.filter
        (fun c => c.kind == NK.neg && NVal.eqv c.value v))]
  | NK.term, p, entries, v => Except.ok (termGetChildren ctx p entries v)
  | NK.verb, p, entries, v => Except.ok (verbGetChildren ctx p entries v)
  | NK.label, p, _, _ => Except.ok [ChItem.query p.children]

/-- The binding accumulated during dispatch: the dict subclass Match of
network.py 41-55, with premise-local variable slots as keys. -/
structure MatchS where
  fact : W
  entries : List (Nat × NVal)
  prem : Option Nat
  paths : List (List String)

/-- Embeds Match.copy (network.py 49-55): a fresh Match over the same fact
with the entries, prem and paths copied over. -/
def Match.copyS (m : MatchS) : MatchS :=
  { fact := m.fact, entries := m.entries, prem := m.prem, paths := m.paths }

/-- The loop body of dispatch for one candidate child (network.py 215-221):
new_match = match.copy(); when the child carries a truthy variable slot that
the incoming match does not yet bind, the slot is bound to the resolved
value; the recursive call then receives new_match. -/
def childCall (m : MatchS) (v : NVal) (c : NChild) : NChild × MatchS :=
  let nm := Match.copyS m
  if c.var ≠ 0 ∧ dlookup m.entries c.var = none then
    (c, { nm with entries := dinsert nm.entries c.var v })
  else
    (c, nm)

/-- One activation of Node.dispatch (network.py 204-223), with the recursion
reified: the result lists the recursive calls (candidate child together with
the binding passed to it) and the terminal delivery (premise terminal id with
the binding handed to it), or the exception the activation raises.  When the
resolved value is None the source assigns parent.children.all() - a flat list
of rows - so the inner iteration raises TypeError as soon as a child exists
(see ChItem). -/
def dispatchStep (ctx : Ctx) (p : NParent) (m : MatchS) :
    Except PyErr (List (NChild × MatchS) × Option (Nat × MatchS)) :=
  match p.childPath with
  | [] => Except.ok ([], p.terminal.map (fun t => (t, m)))
  | a :: l =>
    match getNclass (tagOf (a :: l)) with
    | Except.error e => Except.error e
    | Except.ok k =>
      match resolveK ctx k m.fact (a :: l) with
      | Except.error e => Except.error e
      | Except.ok none =>
          match iterChItems (p.children.map ChItem.node) with
          | Except.error e => Except.error e
          | Except.ok flat =>
              Except.ok (flat.map (fun c => (c, Match.copyS m)),
                         p.terminal.map (fun t => (t, m)))
      | Except.ok (some v) =>
          match getChildrenK ctx k p m.entries v with
          | Except.error e => Except.error e
          | Except.ok items =>
              match iterChItems items with
              | Except.error e => Except.error e
              | Except.ok flat =>
                  Except.ok (flat.map (childCall m v),
                             p.terminal.map (fun t => (t, m)))

/-- The value resolved by one activation of dispatch, when there is one:
mirrors the head of dispatchStep. -/
def stepValue (ctx : Ctx) (p : NParent) (m : MatchS) : Option NVal :=
  match p.childPath with
  | [] => none
  | a :: l =>
    match getNclass (tagOf (a :: l)) with
    | Except.error _ => none
    | Except.ok k =>
      match resolveK ctx k m.fact (a :: l) with
      | Except.error _ => none
      | Except.ok v => v

/-- The inner loop of Match.merge (network.py 57-64) under the source's
Python 2 semantics, where self.items() + m.items() concatenates the two entry
lists.  For each pair (k, v): if k is a key of the other match, the source
evaluates self[k] - which raises KeyError whenever k is a key of the other
match only - and returns False when self[k] differs from v; otherwise the
pair is written into the fresh result dict. -/
def Match.mergePairs {K V : Type} [DecidableEq K] [DecidableEq V]
    (self other : List (K × V)) :
    List (K × V) → List (K × V) → Except PyErr (Option (List (K × V)))
  | [], acc => Except.ok (some acc)
  | (k, v) :: rest, acc =>
      if (dlookup other k).isSome then
        match dlookup self k with
        | none => Except.error PyErr.keyError
        | some sv =>
            if sv ≠ v then Except.ok none
            else Match.mergePairs self other rest (dinsert acc k v)
      else Match.mergePairs self other rest (dinsert acc k v)

/-- Embeds Match.merge (network.py 57-64) acting on the entry lists of the
two matches (the fact and provenance fields play no role in the loop):
returns the merged entries, Python False as none, or the raised exception. -/
def Match.mergeE {K V : Type} [DecidableEq K] [DecidableEq V]
    (self other : List (K × V)) : Except PyErr (Option (List (K × V))) :=
  Match.mergePairs self other (self ++ other) []

/-- Embeds the variable slot assignment of Network.get_or_create_node
(network.py 132-139): pnum defaults to 0; when the resolved name matches the
variable pattern, a first occurrence is assigned pnum = len(vars) and
recorded, and a repeated name reuses its recorded slot.  The vars dict is
carried as an association list from names to slots (the Varname row also
recorded there is immaterial to the slot arithmetic). -/
def slotAssign (ctx : Ctx) (vars : List (String × Nat)) (name : String) :
    Nat × List (String × Nat) :=
  match ctx.varMatch name with
  | none => (0, vars)
  | some _ =>
      match dlookup vars name with
      | none => (vars.length, vars ++ [(name, vars.length)])
      | some p => (p, vars)

/-- Embeds Network.get_or_create_node (network.py 127-152).  After reading
path[-1] (IndexError on an empty path) and resolving the node class
(_get_nclass, AttributeError on an unknown tag), line 130 evaluates
cls.resolve(w, path) where w is a free name bound neither in the function
scope (the parameter is named term) nor in the module scope, so the call
raises NameError before any slot is assigned or any node looked up or
created; no faithful continuation exists past that line. -/
def Network.get_or_create_nodeE (_term : W) (path : List String)
    (_vars : List (String × Nat)) : Except PyErr NChild :=
  match path.getLast? with
  | none => Except.error PyErr.indexError
  | some tag =>
      match getNclass tag with
      | Except.error e => Except.error e
      | Except.ok _ =>
          match pyModuleName ("w") with
          | Except.error e => Except.error e
          | Except.ok _ => Except.error PyErr.nameError

/-- The store state Network operates on: whether the schema tables exist,
the RootNode rows, whether the root carries a premise terminal, the rules
registered on that terminal, and the next row id of the id sequences. -/
structure NetS where
  tablesCreated : Bool
  roots : List Nat
  rootTerminalExists : Bool
  rootTermRules : List Nat
  nextId : Nat
  deriving DecidableEq, Repr

/-- Embeds Network.initialize (network.py 80-86): create the tables
(idempotent DDL), initialize the external lexicon and factset, then
unconditionally construct a new RootNode, add it to the session and commit -
so every call appends one more root row. -/
def Network.initStore (s : NetS) : NetS :=
  { s with tablesCreated := true,
           roots := s.roots ++ [s.nextId],
           nextId := s.nextId + 1 }

/-- Embeds Network.__init__ (network.py 69-78): query the single RootNode
row.  When the tables do not exist the query raises OperationalError, which
is caught and answered by initialize(); with tables present, .one() returns
the sole root unchanged, and raises NoResultFound on zero rows or
MultipleResultsFound on several - neither of which is caught. -/
def Network.newE (s : NetS) : Except PyErr (NetS × Nat) :=
  if s.tablesCreated then
    match s.roots with
    | [r] => Except.ok (s, r)
    | [] => Except.error PyErr.noResultFound
    | _ :: _ :: _ => Except.error PyErr.multipleResultsFound
  else
    let s2 := Network.initStore s
    Except.ok (s2, s.nextId)

/-- The path loop of Network.add_rule for one premise (network.py 110-112):
each path is handed to get_or_create_node, whose line 130 raises NameError,
so any premise with a nonempty path list aborts the call. -/
def pathLoopE (term : W) : List (List String) → Except PyErr Unit
  | [] => Except.ok ()
  | path :: rest =>
      match Network.get_or_create_nodeE term path [] with
      | Except.error e => Except.error e
      | Except.ok _ => pathLoopE term rest

/-- The terminal bookkeeping at the end of one premise iteration of add_rule
(network.py 113-118): reuse the existing premise terminal or create one on
the reached node (the root, since only an empty path list survives the path
loop), then append the rule to the terminal's rules. -/
def attachRootTerm (s : NetS) (ruleId : Nat) : NetS :=
  { s with rootTerminalExists := true,
           rootTermRules := s.rootTermRules ++ [ruleId] }

/-- The premise loop of Network.add_rule (network.py 106-120): for each
premise, a fresh vars dict, the factset's path list, the path loop, then the
terminal bookkeeping; vars stays empty on the reachable path so the PVarname
loop at 119-120 does nothing. -/
def premLoopE (ctx : Ctx) (ruleId : Nat) : List W → NetS → Except PyErr NetS
  | [], s => Except.ok s
  | p :: rest, s =>
      match pathLoopE p (ctx.getPaths p) with
      | Except.error e => Except.error e
      | Except.ok _ => premLoopE ctx ruleId rest (attachRootTerm s ruleId)

/-- Embeds Network.add_rule (network.py 104-125).  A Rule is constructed (id
allocation modelled eagerly from the sequence counter), the premise loop
runs, rule.conds = conds sets a plain transient attribute (conds is not a
mapped relationship, so it never reaches the store), and the consequence loop
reads rule.consecuences - an attribute that no relationship on Rule defines -
raising AttributeError as soon as cons is nonempty.  The function body has no
return statement, so a completing call returns None (the none in the pair). -/
def Network.add_ruleE (ctx : Ctx) (net : NetS) (prems : List W)
    (_conds : List String) (cons : List Nat) :
    Except PyErr (NetS × Option Nat) :=
  let ruleId := net.nextId
  let net0 := { net with nextId := net.nextId + 1 }
  match premLoopE ctx ruleId prems net0 with
  | Except.error e => Except.error e
  | Except.ok net1 =>
      match cons with
      | [] => Except.ok (net1, none)
      | _ :: _ => Except.error PyErr.attributeError

/-- Embeds Network.add_fact (network.py 95-102): with a child_path on the
root, a Match over the fact is built and cls.dispatch(self.root, m, fact,
self) is called - four arguments against the three-parameter classmethod
Node.dispatch(cls, parent, match, network), raising TypeError; with no
child_path the fact is only persisted in the external factset. -/
def Network.add_factE (rootChildPath : List String) (_fact : W) :
    Except PyErr Unit :=
  match rootChildPath with
  | [] => Except.ok ()
  | _ :: _ => Except.error PyErr.typeError

/-- A Condition row (network.py 599-615): the dotted path of the external
predicate and its CondArg rows (by row id); the callable itself is never
reached by the embedded test. -/
structure CondE where
  fpath : String
  argIds : List Nat
  deriving DecidableEq, Repr

/-- Embeds Condition.test (network.py 617-621): the loop header for arg in
args iterates the free name args - the attribute is self.args, and args is
bound neither locally nor in the module scope - so the call raises NameError
before any argument is solved or the external predicate invoked. -/
def Condition.testE (_c : CondE) (_m : MatchS) : Except PyErr Bool :=
  match pyModuleName ("args") with
  | Except.error e => Except.error e
  | Except.ok _ => Except.error PyErr.nameError

/-- A Rule row together with its mapped collections as Rule.dispatch reads
them: the PVarname rows (by row id) and the Condition rows. -/
structure RuleE where
  pvars : List Nat
  conditions : List CondE
  deriving DecidableEq, Repr

/-- The observable outcome of one Rule.dispatch call: the consequence facts
handed to network.add_fact, how many conditions had test invoked on them,
and the exception the call raises, if any. -/
structure RDispatchRes where
  asserted : List Nat
  condsEvaluated : Nat
  raised : Option PyErr
  deriving DecidableEq, Repr

/-- Embeds Rule.get_pvarname / Rule._get_vname (network.py 634-651) on its
first call: the memo dict does not exist yet (AttributeError, caught), then
the loop over self.pvars reads vn.name - but PVarname (542-568) defines no
name attribute or property (only Varname does), so a nonempty pvars
collection raises AttributeError out of the handler; with no pvars rows the
loop finds no target and None is returned. -/
def Rule.getPvarnameE (r : RuleE) (_key : Option Nat × Nat) :
    Except PyErr (Option Nat) :=
  match r.pvars with
  | [] => Except.ok none
  | _ :: _ => Except.error PyErr.attributeError

/-- The condition and consequence phases of Rule.dispatch (network.py
660-666): conditions are tested in declared order; a raised exception
propagates, a False return aborts the firing; once every condition passes,
the consequence loop reads self.consecuences - an attribute no relationship
on Rule defines - raising AttributeError before any fact is asserted (had it
existed, line 666 would then raise NameError on the free name new). -/
def Rule.condPhase (m : MatchS) : List CondE → Nat → RDispatchRes
  | [], n => { asserted := [], condsEvaluated := n, raised := some PyErr.attributeError }
  | c :: rest, n =>
      match Condition.testE c m with
      | Except.error e => { asserted := [], condsEvaluated := n + 1, raised := some e }
      | Except.ok true => Rule.condPhase m rest (n + 1)
      | Except.ok false => { asserted := [], condsEvaluated := n + 1, raised := none }

/-- Embeds Rule.dispatch (network.py 653-666).  The translation loop over
match.items() calls self.get_pvarname((match.prem, num)) for each entry;
per Rule.getPvarnameE this raises AttributeError when pvar rows exist, and
otherwise returns None so that pvar.varname on the next line raises
AttributeError - either way any nonempty binding aborts the call before the
conditions; an empty binding proceeds to the condition phase. -/
def Rule.dispatchE (r : RuleE) (m : MatchS) : RDispatchRes :=
  match m.entries with
  | [] => Rule.condPhase m r.conditions 0
  | (num, _) :: _ =>
      match Rule.getPvarnameE r (m.prem, num) with
      | Except.error e => { asserted := [], condsEvaluated := 0, raised := some e }
      | Except.ok none =>
          { asserted := [], condsEvaluated := 0, raised := some PyErr.attributeError }
      | Except.ok (some _) =>
          { asserted := [], condsEvaluated := 0, raised := some PyErr.attributeError }

/-- A PremNode row with its rules collection (network.py 378-391). -/
structure PremN where
  rules : List Nat
  deriving DecidableEq, Repr

/-- Embeds the constructor Match(fact, prem=None) of the dict subclass
(network.py 43-47): calling it with the fact argument missing raises
TypeError. -/
def Match.initE (fact : Option W) (prem : Option Nat) : Except PyErr MatchS :=
  match fact with
  | none => Except.error PyErr.typeError
  | some f => Except.ok { fact := f, entries := [], prem := prem, paths := [] }

/-- Embeds PremNode.dispatch (network.py 393-419), returning the rule firings
it performs and the exception it raises.  Its first statements build
m = Match() - the required fact argument missing, raising TypeError - so the
body aborts before the match is stored or any rule dispatched; the remainder
of the body is written against the Match/MPair persistence schema that is
absent from this file (see the in-progress note at lines 422-425), and no
statement of the body installs an exception handler, so the error propagates
to the caller and ends the whole dispatch pass. -/
def PremNode.dispatchE (_pn : PremN) (_m : MatchS) : List Nat × Option PyErr :=
  match Match.initE none none with
  | Except.error e => ([], some e)
  | Except.ok _ => ([], none)

/-- Modelled from the spec: the name-equality compatibility check of two
rule-level bindings (spec section 3, invariant 3) - every variable name
present in both carries the same value.  The persistence schema PremNode.
dispatch is written against (the ORM Match with MPair rows) is absent from
src/, per the in-progress note at network.py 422-425. -/
def compatB {V : Type} [DecidableEq V] (b c : List (String × V)) : Bool :=
  b.all (fun kv =>
    match dlookup c kv.1 with
    | none => true
    | some w => decide (w = kv.2))

/-- Modelled from the spec: the union of two compatible bindings, entries of
the first taking precedence (the source loop at network.py 410-416 copies
the candidate and adds only the stored match's missing names). -/
def unionD {V : Type} [DecidableEq V] (b c : List (String × V)) :
    List (String × V) :=
  b ++ c.filter (fun kv => (dlookup b kv.1).isNone)

/-- Modelled from the spec: name-equality merge of two bindings - the union
when every shared name agrees, failure otherwise (spec sections 3 and 4.2). -/
def specMerge {V : Type} [DecidableEq V] (b c : List (String × V)) :
    Option (List (String × V)) :=
  if compatB b c then some (unionD b c) else none

/-- Modelled from the spec: a binding is a complete activation when its
domain covers every declared rule variable (spec section 4.2, step 4). -/
def covers {V : Type} [DecidableEq V] (vars : List String)
    (b : List (String × V)) : Bool :=
  vars.all (fun x => (dlookup b x).isSome)

/-- Modelled from the spec: a rule with two premise terminals, each owning
its permanent match store, and the rule's declared variable names (spec
sections 4.2 and 3; the match stores are the append-only Binding sets of the
Premise Terminals). -/
structure PremJoin (V : Type) where
  vars : List String
  store1 : List (List (String × V))
  store2 : List (List (String × V))
  deriving DecidableEq, Repr

/-- Modelled from the spec: terminal delivery of a new binding at premise 1
(spec section 4.2): the binding is appended to the terminal's permanent
match set, then joined against every stored match of the other premise by
name-equality merge, keeping the merges that cover all rule variables as
activations. -/
def deliver1 {V : Type} [DecidableEq V] (b : List (String × V))
    (s : PremJoin V) : PremJoin V × List (List (String × V)) :=
  ({ s with store1 := s.store1 ++ [b] },
   (s.store2.filterMap (fun pm => specMerge b pm)).filter (covers s.vars))

/-- Modelled from the spec: terminal delivery of a new binding at premise 2,
symmetric to deliver1. -/
def deliver2 {V : Type} [DecidableEq V] (b : List (String × V))
    (s : PremJoin V) : PremJoin V × List (List (String × V)) :=
  ({ s with store2 := s.store2 ++ [b] },
   (s.store1.filterMap (fun pm => specMerge b pm)).filter (covers s.vars))

/-- A sequence of addFact deliveries against the two premise terminals: each
element names the premise the fact's binding reaches (true for premise 1)
and the binding delivered there. -/
def applyOps {V : Type} [DecidableEq V] :
    List (Bool × List (String × V)) → PremJoin V → PremJoin V
  | [], s => s
  | (true, b) :: rest, s => applyOps rest (deliver1 b s).1
  | (false, b) :: rest, s => applyOps rest (deliver2 b s).1

section DictLemmas

variable {K V : Type} [DecidableEq K]

theorem dlookup_append_left {l1 l2 : List (K × V)} {k : K} {v : V}
    (h : dlookup l1 k = some v) : dlookup (l1 ++ l2) k = some v := by
  induction l1 with
  | nil => simp [dlookup] at h
  | cons kv rest ih =>
      obtain ⟨k2, v2⟩ := kv
      by_cases hk : k2 = k
      · simpa [dlookup, hk] using h
      · simp [dlookup, hk] at h ⊢
        exact ih h

theorem dlookup_append_right {l1 l2 : List (K × V)} {k : K}
    (h : dlookup l1 k = none) : dlookup (l1 ++ l2) k = dlookup l2 k := by
  induction l1 with
  | nil => simp [dlookup]
  | cons kv rest ih =>
      obtain ⟨k2, v2⟩ := kv
      by_cases hk : k2 = k
      · simp [dlookup, hk] at h
      · simp [dlookup, hk] at h ⊢
        exact ih h

theorem dinsert_of_lookup_none {l : List (K × V)} {k : K} (v : V)
    (h : dlookup l k = none) : dinsert l k v = l ++ [(k, v)] := by
  induction l with
  | nil => simp [dinsert]
  | cons kv rest ih =>
      obtain ⟨k2, v2⟩ := kv
      by_cases hk : k2 = k
      · simp [dlookup, hk] at h
      · simp [dinsert, hk]
        exact ih (by simpa [dlookup, hk] using h)

theorem dlookup_mem {l : List (K × V)} {k : K} {v : V}
    (h : dlookup l k = some v) : (k, v) ∈ l := by
  induction l with
  | nil => simp [dlookup] at h
  | cons kv rest ih =>
      obtain ⟨k2, v2⟩ := kv
      by_cases hk : k2 = k
      · simp [dlookup, hk] at h
        simp [hk, h]
      · simp [dlookup, hk] at h
        exact List.mem_cons_of_mem _ (ih h)

end DictLemmas

section MergeLemmas

variable {V : Type} [DecidableEq V]

/-- Compatibility read through lookups: the boolean check of compatB implies
agreement of the two lookups on every shared name. -/
theorem compat_lookup {b c : List (String × V)} (h : compatB b c = true)
    {k : String} {v w : V} (hb : dlookup b k = some v)
    (hc : dlookup c k = some w) : v = w := by
  have hmem : (k, v) ∈ b := dlookup_mem hb
  have := (List.all_eq_true.mp h) _ hmem
  rw [hc] at this
  simpa using (of_decide_eq_true this).symm

/-- Lookup in the union of two bindings: the first binding wins, the second
fills in. -/
theorem dlookup_unionD (b c : List (String × V)) (k : String) :
    dlookup (unionD b c) k = (dlookup b k).or (dlookup c k) := by
  cases hb : dlookup b k with
  | some v => simp [unionD, dlookup_append_left hb, Option.or]
  | none =>
      rw [unionD, dlookup_append_right hb, Option.or]
      induction c with
      | nil => simp [dlookup]
      | cons kv rest ih =>
          obtain ⟨k2, v2⟩ := kv
          by_cases hk : k2 = k
          · subst hk
            simp [dlookup, List.filter, hb]
          · cases hkeep : (dlookup b k2).isNone with
            | true => simp [dlookup, List.filter, hkeep, hk, ih]
            | false => simp [dlookup, List.filter, hkeep, hk, ih]

/-- Compatibility is symmetric when the second binding has no duplicate
names (as Python dict entry lists never do). -/
theorem compat_symm {b c : List (String × V)}
    (hnc : (c.map Prod.fst).Nodup) (h : compatB b c = true) :
    compatB c b = true := by
  rw [compatB, List.all_eq_true]
  rintro ⟨k, w⟩ hmem
  cases hb : dlookup b k with
  | none => simp [hb]
  | some v =>
      simp only [hb]
      have hcw : dlookup c k = some w := by
        clear h hb
        induction c with
        | nil => simp at hmem
        | cons kv rest ih =>
            obtain ⟨k2, v2⟩ := kv
            rcases List.mem_cons.mp hmem with heq | htail
            · injection heq with h1 h2
              subst h1; subst h2
              simp [dlookup]
            · have hnc2 : (k2 :: rest.map Prod.fst).Nodup := by
                simpa using hnc
              have hk2 : k2 ≠ k := by
                intro hcontra
                subst hcontra
                have : k2 ∈ rest.map Prod.fst :=
                  List.mem_map.mpr ⟨(k2, w), htail, rfl⟩
                exact (List.nodup_cons.mp hnc2).1 this
              simp [dlookup, hk2]
              exact ih (by simpa using (List.nodup_cons.mp hnc2).2) htail
      have := compat_lookup h hb hcw
      simp [this]

end MergeLemmas

/-! Concrete fixtures used by the counterexamples and witnesses. -/

/-- A concrete external context: X1 and Y1 are recognised as variable names
(numeric suffix 1), the hierarchy walkers are trivial, and facts decompose
into no paths. -/
def ctx0 : Ctx :=
  { varMatch := fun n => if n = "X1" then some 1 else if n = "Y1" then some 1 else none,
    getBases := fun _ => [],
    typeOf := fun ty => ty,
    isaThing := fun _ => true,
    getPaths := fun _ => [] }

/-- A word with no objects: a fact whose shape is shorter than any path. -/
def w0 : W := W.mk 0 ("john") true 0 []

/-- A word with one object under the label a. -/
def wA : W := W.mk 1 ("f") true 0 [(("a"), W.mk 2 ("o") true 0 [])]

/-- An empty binding over w0. -/
def m0 : MatchS := { fact := w0, entries := [], prem := none, paths := [] }

/-- A neg child carrying variable slot 1 and the boolean value true. -/
def c2neg : NChild :=
  { kind := NK.neg, var := 1, value := NVal.b true, tvar := 0, ttypeId := 0,
    tbaseIds := [] }

/-- A neg child carrying slot 0, i.e. the slot get_or_create_node assigns to
the first variable of a premise. -/
def c3child : NChild :=
  { kind := NK.neg, var := 0, value := NVal.b true, tvar := 0, ttypeId := 0,
    tbaseIds := [] }

/-- A neg-tagged parent with one child, used with a fact whose shape cannot
resolve the path. -/
def p2 : NParent :=
  { childPath := [("a"), ("_neg")], children := [c2neg], terminal := none }

/-- A term-tagged parent with one child, same unresolvable-feature setup. -/
def p2w : NParent :=
  { childPath := [("b"), ("_term")], children := [c2neg], terminal := none }

/-- A neg-tagged parent with one child and a premise terminal, used with a
fact that does resolve. -/
def pW : NParent :=
  { childPath := [("a"), ("_neg")], children := [c2neg], terminal := some 5 }

/-- The empty binding over the resolvable fact wA. -/
def mW : MatchS := { fact := wA, entries := [], prem := none, paths := [] }

/-- The binding the single child of pW receives: mW extended at slot 1. -/
def mcW : MatchS :=
  { fact := wA, entries := [(1, NVal.b true)], prem := none, paths := [] }

/-- The fresh store state. -/
def netS0 : NetS :=
  { tablesCreated := false, roots := [], rootTerminalExists := false,
    rootTermRules := [], nextId := 0 }

/-- The store state after one Network.initialize call. -/
def netS1 : NetS := Network.initStore netS0

/-- The store state add_rule leaves behind on netS0 for one pathless premise:
the rule (id 0) is registered on the root terminal. -/
def net1val : NetS :=
  { tablesCreated := false, roots := [], rootTerminalExists := true,
    rootTermRules := [0], nextId := 1 }

/-- A rule with three conditions and no PVarname rows. -/
def ruleC5 : RuleE :=
  { pvars := [],
    conditions := [{ fpath := ("fn1"), argIds := [] },
                   { fpath := ("fn2"), argIds := [] },
                   { fpath := ("fn3"), argIds := [] }] }

/-- A premise terminal shared by two rules. -/
def premC6 : PremN := { rules := [1, 2] }

/-! Claim theorems. -/

/-- Claim C2, counterexample: for the neg-tagged (value-bearing) parent p2
with one child and a fact whose shape cannot resolve the feature, dispatch
does not yield the no-matching-children outcome the claim states; it takes
the match-all branch and raises TypeError iterating the flat child list. -/
theorem dispatch_unresolved_not_empty_cex :
    dispatchStep ctx0 p2 m0 = Except.error PyErr.typeError ∧
    dispatchStep ctx0 p2 m0 ≠
      Except.ok (([] : List (NChild × MatchS)), (none : Option (Nat × MatchS))) := by
  refine ⟨rfl, ?_⟩
  intro h
  rw [show dispatchStep ctx0 p2 m0 = Except.error PyErr.typeError from rfl] at h
  exact Except.noConfusion h

/-- Claim C3, evaluation of the code bug: the first variable occurrence of a
premise is assigned slot len(vars) = 0 (a repeated name reuses it and the
next variable gets 1, so assignment is first-occurrence order but
zero-based), slot 0 is exactly what dispatch treats as not-a-variable (the
childCall on a slot-0 child never extends the binding), and
get_or_create_node itself raises NameError at line 130 on the unbound name
w before ever assigning a slot. -/
theorem var_slot_zero_bug :
    (slotAssign ctx0 [] ("X1")).1 = 0 ∧
    (slotAssign ctx0 ((slotAssign ctx0 [] ("X1")).2) ("X1")).1 = 0 ∧
    (slotAssign ctx0 ((slotAssign ctx0 [] ("X1")).2) ("Y1")).1 = 1 ∧
    (childCall m0 (NVal.b true) c3child).2.entries = m0.entries ∧
    Network.get_or_create_nodeE w0 [("a"), ("_neg")] [] =
      Except.error PyErr.nameError :=
  ⟨rfl, rfl, rfl, rfl, rfl⟩

/-- Claim C4, evaluation of the code bug: merging two bindings with disjoint
names raises KeyError (the loop evaluates self[k] for every key of the other
match), instead of returning their union as the claim states; the loop does
produce the union when the other match's keys are all present in self. -/
theorem merge_raises_keyerror :
    Match.mergeE [((("x1") : String), (1 : Nat))] [((("x2") : String), (2 : Nat))] =
      Except.error PyErr.keyError ∧
    Match.mergeE [((("x1") : String), (1 : Nat))] [((("x1") : String), (1 : Nat))] =
      Except.ok (some [((("x1") : String), (1 : Nat))]) :=
  ⟨rfl, rfl⟩

/-- Claim C5, evaluation of the code bug: dispatching a rule with three
conditions on a complete (empty-slot) binding raises NameError inside the
first Condition.test (the free name args), so no condition ever returns
false, only one condition is ever reached, and no consequence is asserted. -/
theorem condition_shortcircuit_nameerror :
    Rule.dispatchE ruleC5 m0 =
      { asserted := [], condsEvaluated := 1, raised := some PyErr.nameError } ∧
    ruleC5.conditions.length = 3 :=
  ⟨rfl, rfl⟩

/-- Claim C6, evaluation of the code bug: a premise terminal referenced by
two rules dispatches no rule at all - the body raises TypeError at its first
statement and contains no exception handler, so the error ends the whole
dispatch pass instead of being isolated to one rule activation. -/
theorem condition_failure_not_isolated :
    PremNode.dispatchE premC6 m0 = ([], some PyErr.typeError) ∧
    premC6.rules.length = 2 :=
  ⟨rfl, rfl⟩

/-- Claim C8, counterexample: calling initialize() on an already-initialized
store (netS1, holding one root) does not leave the store unchanged - it
creates and adds a second root. -/
theorem init_store_not_idempotent_cex :
    Network.initStore netS1 ≠ netS1 ∧
    (Network.initStore netS1).roots.length = 2 := by
  refine ⟨?_, rfl⟩
  decide

/-- Claim C9, counterexample: a completing add_rule call (one premise with an
empty path list) installs the rule on the root premise terminal but returns
None, not the installed Rule identity. -/
theorem add_rule_returns_none_cex :
    Network.add_ruleE ctx0 netS0 [w0] [] [] = Except.ok (net1val, none) ∧
    ¬ ∃ s2 rid, Network.add_ruleE ctx0 netS0 [w0] [] [] =
        Except.ok (s2, some rid) := by
  refine ⟨rfl, ?_⟩
  rintro ⟨s2, rid, h⟩
  rw [show Network.add_ruleE ctx0 netS0 [w0] [] [] = Except.ok (net1val, none)
        from rfl] at h
  simp only [Except.ok.injEq, Prod.mk.injEq] at h
  exact Option.noConfusion h.2

/-- Claim C2, amended: during dispatch, an unresolvable feature (resolve
yields no value) is treated as the match-all branch for every node kind
alike - and since that branch assigns the flat row list parent.children.
all(), iterating it raises TypeError whenever the node has any child, while
with no children dispatch proceeds straight to the terminal; LabelNode.
resolve never yields no value in the first place. -/
theorem dispatch_unresolved_matches_all (ctx : Ctx) (p : NParent) (m : MatchS)
    (k : NK)
    (htag : getNclass (tagOf p.childPath) = Except.ok k)
    (hne : p.childPath ≠ [])
    (hres : resolveK ctx k m.fact p.childPath = Except.ok none) :
    (p.children ≠ [] → dispatchStep ctx p m = Except.error PyErr.typeError) ∧
    (p.children = [] →
      dispatchStep ctx p m =
        Except.ok ([], p.terminal.map (fun t => (t, m)))) ∧
    (∀ w path, resolveK ctx NK.label w path ≠ Except.ok none) := by
  refine ⟨?_, ?_, ?_⟩
  · intro hch
    cases hcp : p.childPath with
    | nil => exact absurd hcp hne
    | cons a l =>
        rw [hcp] at htag hres
        cases hcc : p.children with
        | nil => exact absurd hcc hch
        | cons c cs =>
            simp [dispatchStep, hcp, htag, hres, hcc, iterChItems]
  · intro hch
    cases hcp : p.childPath with
    | nil => exact absurd hcp hne
    | cons a l =>
        rw [hcp] at htag hres
        simp [dispatchStep, hcp, htag, hres, hch, iterChItems]
  · intro w path h
    simp only [resolveK] at h
    cases hg : path.reverse.get? 1 with
    | none => rw [hg] at h; exact Except.noConfusion h
    | some s =>
        rw [hg] at h
        simp at h

/-- Claim C2, witness for the amended theorem: a term-tagged parent with one
child and a fact that cannot resolve the feature ends in TypeError. -/
theorem dispatch_unresolved_matches_all_w :
    dispatchStep ctx0 p2w m0 = Except.error PyErr.typeError :=
  (dispatch_unresolved_matches_all ctx0 p2w m0 NK.term rfl
    (by decide) rfl).1 (by decide)

/-- Claim C8, amended: the idempotence the claim describes lives in
Network.__init__, not in initialize() - constructing a Network over an
already-initialized store with its single root returns that root and leaves
the store unchanged (initialize() itself unconditionally adds a new root,
per the counterexample). -/
theorem network_new_idempotent (s : NetS) (r : Nat)
    (ht : s.tablesCreated = true) (hr : s.roots = [r]) :
    Network.newE s = Except.ok (s, r) := by
  simp [Network.newE, ht, hr]

/-- Claim C8, witness: the store produced by one initialize() call is
returned unchanged by Network.__init__. -/
theorem network_new_idempotent_w :
    Network.newE netS1 = Except.ok (netS1, 0) :=
  network_new_idempotent netS1 0 rfl rfl

/-- Claim C9, amended: every completing add_rule call returns None - the
compiled rule is installed (registered on its premise terminals) but the
function body has no return statement, so the Rule identity is never
returned. -/
theorem add_rule_returns_none (ctx : Ctx) (net : NetS) (prems : List W)
    (conds : List String) (cons : List Nat) (out : NetS × Option Nat)
    (h : Network.add_ruleE ctx net prems conds cons = Except.ok out) :
    out.2 = none := by
  rw [Network.add_ruleE] at h
  cases hpl : premLoopE ctx net.nextId prems { net with nextId := net.nextId + 1 } with
  | error e => rw [hpl] at h; exact Except.noConfusion h
  | ok net1 =>
      rw [hpl] at h
      cases cons with
      | nil =>
          simp only [Except.ok.injEq] at h
          rw [← h]
      | cons c cs => exact Except.noConfusion h

/-- Claim C9, witness: the completing call of the counterexample satisfies
the amended statement. -/
theorem add_rule_returns_none_w :
    ((net1val, (none : Option Nat))).2 = (none : Option Nat) :=
  add_rule_returns_none ctx0 netS0 [w0] [] [] (net1val, none) rfl

/-- Claim C10: in one activation of Node.dispatch the incoming binding is
never changed - the terminal delivery receives exactly the caller's binding,
and every recursive call receives a binding derived from the caller's alone:
its entries are the caller's entries unchanged unless the child carries a
nonzero variable slot unbound in the caller's binding, in which case exactly
one entry - that slot mapped to the resolved value - is appended; entries
added for one child therefore never appear in a sibling's binding. -/
theorem dispatch_binding_frame (ctx : Ctx) (p : NParent) (m : MatchS)
    (calls : List (NChild × MatchS)) (dl : Option (Nat × MatchS))
    (h : dispatchStep ctx p m = Except.ok (calls, dl)) :
    dl = p.terminal.map (fun t => (t, m)) ∧
    ∀ c mc, (c, mc) ∈ calls →
      mc.fact = m.fact ∧ mc.prem = m.prem ∧ mc.paths = m.paths ∧
      (¬(c.var ≠ 0 ∧ dlookup m.entries c.var = none) →
        mc.entries = m.entries) ∧
      ((c.var ≠ 0 ∧ dlookup m.entries c.var = none) →
        ∃ v, stepValue ctx p m = some v ∧
          mc.entries = m.entries ++ [(c.var, v)]) := by
  cases hcp : p.childPath with
  | nil =>
      simp only [dispatchStep, hcp] at h
      simp only [Except.ok.injEq, Prod.mk.injEq] at h
      obtain ⟨hcalls, hdl⟩ := h
      subst hdl
      refine ⟨rfl, ?_⟩
      intro c mc hmem
      rw [← hcalls] at hmem
      simp at hmem
  | cons a l =>
      simp only [dispatchStep, hcp] at h
      cases hnc : getNclass (tagOf (a :: l)) with
      | error e => simp only [hnc] at h; exact Except.noConfusion h
      | ok k =>
          simp only [hnc] at h
          cases hres : resolveK ctx k m.fact (a :: l) with
          | error e => simp only [hres] at h; exact Except.noConfusion h
          | ok vOpt =>
              simp only [hres] at h
              cases vOpt with
              | none =>
                  cases hcc : p.children with
                  | cons c cs =>
                      simp only [hcc, List.map, iterChItems] at h
                      exact Except.noConfusion h
                  | nil =>
                      simp only [hcc, List.map_nil, iterChItems,
                        Except.ok.injEq, Prod.mk.injEq] at h
                      obtain ⟨hcalls, hdl⟩ := h
                      subst hdl
                      refine ⟨rfl, ?_⟩
                      intro c mc hmem
                      rw [← hcalls] at hmem
                      simp at hmem
              | some v =>
                  cases hgc : getChildrenK ctx k p m.entries v with
                  | error e => simp only [hgc] at h; exact Except.noConfusion h
                  | ok items =>
                      simp only [hgc] at h
                      cases hit : iterChItems items with
                      | error e => simp only [hit] at h; exact Except.noConfusion h
                      | ok flat =>
                          simp only [hit] at h
                          simp only [Except.ok.injEq, Prod.mk.injEq] at h
                          obtain ⟨hcalls, hdl⟩ := h
                          subst hdl
                          refine ⟨rfl, ?_⟩
                          intro c mc hmem
                          rw [← hcalls] at hmem
                          obtain ⟨c0, hc0, heq⟩ := List.mem_map.mp hmem
                          have hval : stepValue ctx p m = some v := by
                            simp only [stepValue, hcp, hnc, hres]
                          by_cases hcond : c0.var ≠ 0 ∧ dlookup m.entries c0.var = none
                          · rw [childCall, if_pos hcond] at heq
                            injection heq with hc hm
                            subst hc
                            subst hm
                            refine ⟨rfl, rfl, rfl, ?_, ?_⟩
                            · intro hn
                              exact absurd hcond hn
                            · intro _
                              refine ⟨v, hval, ?_⟩
                              simp only [Match.copyS]
                              exact dinsert_of_lookup_none v hcond.2
                          · rw [childCall, if_neg hcond] at heq
                            injection heq with hc hm
                            subst hc
                            subst hm
                            refine ⟨rfl, rfl, rfl, fun _ => rfl, ?_⟩
                            intro hpos
                            exact absurd hpos hcond

/-- Claim C10, witness: the single candidate child of pW (variable slot 1,
unbound in the empty binding mW) receives mW extended by exactly the entry
(1, resolved value). -/
theorem dispatch_binding_frame_w :
    ∃ v, stepValue ctx0 pW mW = some v ∧
      mcW.entries = mW.entries ++ [(c2neg.var, v)] :=
  ((dispatch_binding_frame ctx0 pW mW [(c2neg, mcW)] (some (5, mW)) rfl).2
      c2neg mcW (List.mem_singleton.mpr rfl)).2.2.2.2 ⟨by decide, by decide⟩

/-- Store 1 of the two-premise rule accumulates exactly the bindings
delivered at premise 1, in order. -/
theorem applyOps_store1 {V : Type} [DecidableEq V]
    (ops : List (Bool × List (String × V))) (s : PremJoin V) :
    (applyOps ops s).store1
      = s.store1 ++ (ops.filter (fun op => op.1)).map (fun op => op.2) := by
  induction ops generalizing s with
  | nil => simp [applyOps]
  | cons op rest ih =>
      obtain ⟨b, d⟩ := op
      cases b with
      | true =>
          simp only [applyOps]
          rw [ih]
          simp [deliver1, List.filter]
      | false =>
          simp only [applyOps]
          rw [ih]
          simp [deliver2, List.filter]

/-- Store 2 of the two-premise rule accumulates exactly the bindings
delivered at premise 2, in order. -/
theorem applyOps_store2 {V : Type} [DecidableEq V]
    (ops : List (Bool × List (String × V))) (s : PremJoin V) :
    (applyOps ops s).store2
      = s.store2 ++ (ops.filter (fun op => !op.1)).map (fun op => op.2) := by
  induction ops generalizing s with
  | nil => simp [applyOps]
  | cons op rest ih =>
      obtain ⟨b, d⟩ := op
      cases b with
      | true =>
          simp only [applyOps]
          rw [ih]
          simp [deliver1, List.filter]
      | false =>
          simp only [applyOps]
          rw [ih]
          simp [deliver2, List.filter]

/-- Claim C7: across any sequence of addFact deliveries, each premise
terminal's stored match set is exactly its old content with the delivered
bindings appended - so its size is non-decreasing and no stored match is
ever deleted or overwritten.  Modelled from the spec (section 4.2, step 2):
the persistence schema of the stores is absent from src/, and the only
operation the source performs on a store is the append at network.py 398. -/
theorem prem_matches_append_only {V : Type} [DecidableEq V]
    (ops : List (Bool × List (String × V))) (s : PremJoin V) :
    (applyOps ops s).store1
        = s.store1 ++ (ops.filter (fun op => op.1)).map (fun op => op.2) ∧
    (applyOps ops s).store2
        = s.store2 ++ (ops.filter (fun op => !op.1)).map (fun op => op.2) ∧
    s.store1.length ≤ (applyOps ops s).store1.length ∧
    s.store2.length ≤ (applyOps ops s).store2.length := by
  refine ⟨applyOps_store1 ops s, applyOps_store2 ops s, ?_, ?_⟩
  · rw [applyOps_store1]
    simp
  · rw [applyOps_store2]
    simp

/-- Claim C1: modelled from the spec (section 4.2; the Match/MPair schema the
source join is written against is absent from src/).  For a two-premise rule
whose premises are satisfied by bindings b1 and b2 under one consistent
assignment covering the rule variables, delivering the facts in either order
fires exactly once - the first delivery produces no activation, the second
produces exactly one - and the two orders produce the same activation (equal
on every variable). -/
theorem join_fact_order_commutes {V : Type} [DecidableEq V]
    (vars : List String) (b1 b2 : List (String × V))
    (hn2 : (b2.map Prod.fst).Nodup)
    (hc : compatB b1 b2 = true)
    (hcov : ∀ x ∈ vars, (dlookup b1 x).isSome ∨ (dlookup b2 x).isSome) :
    (deliver1 b1 (PremJoin.mk vars [] [])).2 = [] ∧
    (deliver2 b2 (deliver1 b1 (PremJoin.mk vars [] [])).1).2 = [unionD b2 b1] ∧
    (deliver2 b2 (PremJoin.mk vars [] [])).2 = [] ∧
    (deliver1 b1 (deliver2 b2 (PremJoin.mk vars [] [])).1).2 = [unionD b1 b2] ∧
    (∀ k, dlookup (unionD b2 b1) k = dlookup (unionD b1 b2) k) := by
  have hc21 : compatB b2 b1 = true := compat_symm hn2 hc
  have hm21 : specMerge b2 b1 = some (unionD b2 b1) := by
    simp [specMerge, hc21]
  have hm12 : specMerge b1 b2 = some (unionD b1 b2) := by
    simp [specMerge, hc]
  have hcov21 : covers vars (unionD b2 b1) = true := by
    rw [covers, List.all_eq_true]
    intro x hx
    rw [dlookup_unionD]
    rcases hcov x hx with h1 | h2
    · cases h2x : dlookup b2 x with
      | some v => simp [Option.or]
      | none =>
          simp only [Option.or]
          exact h1
    · cases h2x : dlookup b2 x with
      | some v => simp [Option.or]
      | none => rw [h2x] at h2; simp [Option.isSome] at h2
  have hcov12 : covers vars (unionD b1 b2) = true := by
    rw [covers, List.all_eq_true]
    intro x hx
    rw [dlookup_unionD]
    rcases hcov x hx with h1 | h2
    · cases h1x : dlookup b1 x with
      | some v => simp [Option.or]
      | none => rw [h1x] at h1; simp [Option.isSome] at h1
    · cases h1x : dlookup b1 x with
      | some v => simp [Option.or]
      | none =>
          simp only [Option.or]
          exact h2
  refine ⟨rfl, ?_, rfl, ?_, ?_⟩
  · simp [deliver1, deliver2, List.filterMap_cons, hm21, List.filter, hcov21]
  · simp [deliver1, deliver2, List.filterMap_cons, hm12, List.filter, hcov12]
  · intro k
    rw [dlookup_unionD, dlookup_unionD]
    cases h1 : dlookup b1 k with
    | none => cases h2 : dlookup b2 k <;> simp [Option.or]
    | some v =>
        cases h2 : dlookup b2 k with
        | none => simp [Option.or]
        | some w =>
            simp only [Option.or]
            exact congrArg some (compat_lookup hc h1 h2).symm

/-- Claim C1, witness: a concrete two-premise rule over variables x, y, z
with premise bindings sharing y consistently - both delivery orders fire
exactly once with the same activation. -/
theorem join_fact_order_commutes_w :
    (deliver2 [(("y"), (2 : Nat)), (("z"), 3)]
        (deliver1 [(("x"), 1), (("y"), 2)]
          (PremJoin.mk [("x"), ("y"), ("z")] [] [])).1).2
      = [unionD [(("y"), 2), (("z"), 3)] [(("x"), 1), (("y"), 2)]] ∧
    (deliver1 [(("x"), 1), (("y"), 2)]
        (deliver2 [(("y"), 2), (("z"), 3)]
          (PremJoin.mk [("x"), ("y"), ("z")] [] [])).1).2
      = [unionD [(("x"), 1), (("y"), 2)] [(("y"), 2), (("z"), 3)]] :=
  ⟨(join_fact_order_commutes [("x"), ("y"), ("z")] [(("x"), 1), (("y"), 2)]
      [(("y"), 2), (("z"), 3)] (by decide) (by decide) (by decide)).2.1,
   (join_fact_order_commutes [("x"), ("y"), ("z")] [(("x"), 1), (("y"), 2)]
      [(("y"), 2), (("z"), 3)] (by decide) (by decide) (by decide)).2.2.2.1⟩

end TermsNet
